import Mathlib

/-!
rhub-auth-util: database pool start-up (`database_util.go`, `util.go`).

A shallow embedding of `ConnectToDatabase` and of the package start-up routine
of package `util`.  Every call that leaves the package (the logger, the `sql`
pool and its driver) is recorded, in program order, in a list of events; the
answers of the outside world (the process environment, what `sql.Open` and
`Ping` return, the name the runtime reports for a function) are the fields of a
`World`, so every theorem holds for all of them.
-/

namespace Util

/-! ## Go values -/

/-- Go error values as this package builds and receives them: `errorString` is
what `fmt.Errorf` returns for a format without `%w`, `wrapError` what it returns
for a format with one `%w` (the rendered message and the wrapped error). -/
inductive GoError where
  | errorString (s : String)
  | wrapError (msg : String) (err : GoError)
  deriving DecidableEq, Repr

/-- The method `Error()` of an error value. -/
def GoError.Error : GoError → String
  | .errorString s => s
  | .wrapError msg _ => msg

/-- The function `errors.Unwrap`. -/
def GoError.Unwrap : GoError → Option GoError
  | .errorString _ => none
  | .wrapError _ err => some err

/-- A non-nil `*sql.DB`: the address of one pool. -/
structure DB where
  ptr : Nat
  deriving DecidableEq, Repr

/-- What `sql.Open` hands back: an error, or a non-nil pool. -/
inductive OpenResult where
  | error (err : GoError)
  | ok (db : DB)
  deriving DecidableEq, Repr

/-- Durations of package `time`, in nanoseconds. -/
abbrev Duration := Int

def Nanosecond : Duration := 1
def Second : Duration := 1000000000 * Nanosecond
def Minute : Duration := 60 * Second

/-- The calls that leave the package, as they appear in a run.  A `log` event
holds the formatted message (without the header and newline the logger adds);
an `sqlOpen` or `ping` event holds what the call returned.  `close` is the
method `Close` of a pool, which no function of the package calls. -/
inductive Event where
  | log (line : String)
  | sqlOpen (driverName dataSourceName : String) (res : OpenResult)
  | setMaxOpenConns (db : DB) (n : Int)
  | setMaxIdleConns (db : DB) (n : Int)
  | setConnMaxIdleTime (db : DB) (d : Duration)
  | ping (db : DB) (res : Option GoError)
  | close (db : DB)
  deriving DecidableEq, Repr

/-- The outside world of one call. -/
structure World where
  /-- The process environment: `none` for a variable that is not set. -/
  env : String → Option String
  /-- The name the runtime reports for `ConnectToDatabase`. -/
  funcName : String
  /-- The answer of `sql.Open driverName dataSourceName`. -/
  sqlOpen : String → String → OpenResult
  /-- The answer of `db.Ping()`: `none` is a nil error. -/
  ping : DB → Option GoError

/-- The function `os.Getenv`: the value, or the empty string when not set. -/
def Getenv (env : String → Option String) (key : String) : String :=
  (env key).getD ""

/-! ## `util.go` -/

/-- The function `LogFunctionExecutionStart`, given the function name found by
`getFunctionName`: one log line. -/
def LogFunctionExecutionStart (functionName : String) : List Event :=
  [Event.log ("Executing " ++ functionName)]

/-! ## `database_util.go` -/

/-- The two results of `ConnectToDatabase` and the calls it made. -/
structure Outcome where
  db : Option DB
  err : Option GoError
  trace : List Event
  deriving DecidableEq, Repr

/-- The five values read from the environment. -/
structure Config where
  host : String
  port : String
  dbname : String
  user : String
  password : String
  deriving DecidableEq, Repr

/-- Lines 51-55: the five `os.Getenv` reads. -/
def loadConfig (env : String → Option String) : Config where
  host := Getenv env "DB_HOST_DEV"
  port := Getenv env "DB_PORT_DEV"
  dbname := Getenv env "DB_NAME_DEV"
  user := Getenv env "DB_USER_DEV"
  password := Getenv env "DB_PASSWORD_DEV"

/-- The guard of line 57, as the Boolean the code computes. -/
def Config.incomplete (c : Config) : Bool :=
  c.host == "" || c.port == "" || c.dbname == "" || c.user == "" || c.password == ""

/-- Lines 61-62: `fmt.Sprintf` of the format
`host=%s user=%s password=%s port=%s database=%s`. -/
def dbURI (c : Config) : String :=
  "host=" ++ c.host ++ " user=" ++ c.user ++ " password=" ++ c.password ++
    " port=" ++ c.port ++ " database=" ++ c.dbname

/-- The error of line 58. -/
def missingEnvError : GoError :=
  GoError.errorString "missing environment variable for database connection"

/-- The function `ConnectToDatabase`.  Its `DBPool` is a local variable (declared
by `:=` on line 66), so the package variables are not touched here. -/
def ConnectToDatabase (w : World) : Outcome :=
  let t0 := LogFunctionExecutionStart w.funcName
  let c := loadConfig w.env
  if c.incomplete then
    { db := none, err := some missingEnvError, trace := t0 }
  else
    let uri := dbURI c
    let t1 := t0 ++ [Event.log ("Connecting to database with URI: " ++ uri)]
    match w.sqlOpen "pgx" uri with
    | .error err =>
      { db := none
        err := some (GoError.wrapError ("sql.Open: " ++ err.Error) err)
        trace := t1 ++ [Event.sqlOpen "pgx" uri (.error err),
                        Event.log ("sql.Open: " ++ err.Error)] }
    | .ok pool =>
      let t2 := t1 ++ [Event.sqlOpen "pgx" uri (.ok pool),
                       Event.setMaxOpenConns pool 5,
                       Event.setMaxIdleConns pool 3,
                       Event.setConnMaxIdleTime pool 5]
      match w.ping pool with
      | some err =>
        { db := none
          err := some (GoError.wrapError ("DB ping error: " ++ err.Error) err)
          trace := t2 ++ [Event.ping pool (some err),
                          Event.log ("Error pinging the database: " ++ err.Error)] }
      | none =>
        { db := some pool
          err := none
          trace := t2 ++ [Event.ping pool none,
                          Event.log "Database successfully pinged"] }

/-- The package variables `DBPool` and `dbErr`. -/
structure Globals where
  DBPool : Option DB
  dbErr : Option GoError
  deriving DecidableEq, Repr

/-- The function `init` of the package: the new package variables and the calls
made. -/
def init (w : World) (_g : Globals) : Globals × List Event :=
  let r := ConnectToDatabase w
  let g : Globals := { DBPool := r.db, dbErr := r.err }
  match r.err with
  | some e => (g, r.trace ++ [Event.log ("Error connecting the database: " ++ e.Error)])
  | none => (g, r.trace)

/-! ## Sample worlds -/

/-- The environment of the scenario of a complete configuration. -/
def sampleEnv : String → Option String := fun key =>
  if key = "DB_HOST_DEV" then some "db.local"
  else if key = "DB_PORT_DEV" then some "5432"
  else if key = "DB_NAME_DEV" then some "app"
  else if key = "DB_USER_DEV" then some "svc"
  else if key = "DB_PASSWORD_DEV" then some "x"
  else none

/-- A reachable database: the open call gives pool `p`, the probe answers. -/
def reachableWorld (p : Nat) : World where
  env := sampleEnv
  funcName := "util.ConnectToDatabase"
  sqlOpen := fun _ _ => .ok ⟨p⟩
  ping := fun _ => none

/-- A partition: the pool opens (as pool `p`), the probe fails with `e`. -/
def partitionWorld (p : Nat) (e : GoError) : World where
  env := sampleEnv
  funcName := "util.ConnectToDatabase"
  sqlOpen := fun _ _ => .ok ⟨p⟩
  ping := fun _ => some e

/-- A driver that rejects every descriptor with the error `e`. -/
def rejectingWorld (e : GoError) : World where
  env := sampleEnv
  funcName := "util.ConnectToDatabase"
  sqlOpen := fun _ _ => .error e
  ping := fun _ => none

/-- The environment of the scenario with an empty password. -/
def emptyPasswordEnv : String → Option String := fun key =>
  if key = "DB_PASSWORD_DEV" then some "" else sampleEnv key

/-- The world of the scenario with an empty password. -/
def emptyPasswordWorld : World where
  env := emptyPasswordEnv
  funcName := "util.ConnectToDatabase"
  sqlOpen := fun _ _ => .ok ⟨1⟩
  ping := fun _ => none

/-! ## Reading a run -/

/-- The names of the five environment variables. -/
def requiredKeys : List String :=
  ["DB_HOST_DEV", "DB_PORT_DEV", "DB_NAME_DEV", "DB_USER_DEV", "DB_PASSWORD_DEV"]

/-- A variable that is not set, or set to the empty string. -/
def absentOrEmpty (env : String → Option String) (key : String) : Prop :=
  env key = none ∨ env key = some ""

instance (env : String → Option String) (key : String) : Decidable (absentOrEmpty env key) :=
  inferInstanceAs (Decidable (env key = none ∨ env key = some ""))

/-- All five variables are set to a non-empty string. -/
def configured (env : String → Option String) : Prop :=
  ∀ key ∈ requiredKeys, ¬ absentOrEmpty env key

instance (env : String → Option String) : Decidable (configured env) :=
  inferInstanceAs (Decidable (∀ key ∈ requiredKeys, ¬ absentOrEmpty env key))

/-- A call into the `sql` package (anything but a log line). -/
def Event.isDriverCall : Event → Bool
  | .log _ => false
  | _ => true

/-- The value holds no space character. -/
def noSpace (s : String) : Prop := ' ' ∉ s.data

instance (s : String) : Decidable (noSpace s) :=
  inferInstanceAs (Decidable (' ' ∉ s.data))

/-- None of the five values holds a space character. -/
def Config.noSpace (c : Config) : Prop :=
  Util.noSpace c.host ∧ Util.noSpace c.port ∧ Util.noSpace c.dbname ∧ Util.noSpace c.user ∧
    Util.noSpace c.password

instance (c : Config) : Decidable c.noSpace :=
  inferInstanceAs (Decidable (Util.noSpace c.host ∧ Util.noSpace c.port ∧
    Util.noSpace c.dbname ∧ Util.noSpace c.user ∧ Util.noSpace c.password))

/-- The configuration record of the complete scenario. -/
def sampleConfig : Config := loadConfig sampleEnv

/-- The limits that have been set on a pool: `none` for one never set. -/
structure PoolLimits where
  maxOpenConns : Option Int
  maxIdleConns : Option Int
  connMaxIdleTime : Option Duration
  deriving DecidableEq, Repr

/-- The effect of one event on the limits set on pool `db`. -/
def PoolLimits.record (db : DB) (l : PoolLimits) : Event → PoolLimits
  | .sqlOpen _ _ (.ok p) => if p = db then ⟨none, none, none⟩ else l
  | .setMaxOpenConns p n => if p = db then { l with maxOpenConns := some n } else l
  | .setMaxIdleConns p n => if p = db then { l with maxIdleConns := some n } else l
  | .setConnMaxIdleTime p d => if p = db then { l with connMaxIdleTime := some d } else l
  | _ => l

/-- The limits set on pool `db` at the end of a run. -/
def limitsOf (db : DB) (t : List Event) : PoolLimits :=
  t.foldl (PoolLimits.record db) ⟨none, none, none⟩

/-- The effect of one event on the pools that are live: a pool is live from
its successful open until it is closed. -/
def liveStep (live : List DB) : Event → List DB
  | .sqlOpen _ _ (.ok p) => p :: live
  | .close p => live.erase p
  | _ => live

/-- The pools that are live at the end of a run. -/
def livePools (t : List Event) : List DB :=
  t.foldl liveStep []

/-- The successful opens of a run. -/
def opens : List Event → Nat
  | [] => 0
  | .sqlOpen _ _ (.ok _) :: t => opens t + 1
  | _ :: t => opens t

/-- Further calls of `ConnectToDatabase`, one world each. -/
def furtherCalls : List World → List Event
  | [] => []
  | w :: ws => (ConnectToDatabase w).trace ++ furtherCalls ws

/-- One execution instance: the start-up routine, then further calls of
`ConnectToDatabase`. -/
def session (w : World) (g : Globals) (ws : List World) : List Event :=
  (init w g).2 ++ furtherCalls ws


/-! ## The four paths of `ConnectToDatabase` -/

theorem getenv_eq_empty_iff (env : String → Option String) (key : String) :
    Getenv env key = "" ↔ absentOrEmpty env key := by
  unfold Getenv absentOrEmpty
  cases h : env key <;> simp

theorem incomplete_iff (env : String → Option String) :
    (loadConfig env).incomplete = true ↔ ∃ key ∈ requiredKeys, absentOrEmpty env key := by
  simp [Config.incomplete, loadConfig, requiredKeys, getenv_eq_empty_iff, or_assoc]

theorem complete_iff (env : String → Option String) :
    (loadConfig env).incomplete = false ↔ configured env := by
  rw [← Bool.not_eq_true, incomplete_iff]
  simp [configured]

theorem connect_incomplete (w : World) (h : (loadConfig w.env).incomplete = true) :
    ConnectToDatabase w =
      { db := none, err := some missingEnvError,
        trace := [Event.log ("Executing " ++ w.funcName)] } := by
  simp [ConnectToDatabase, h, LogFunctionExecutionStart]

theorem connect_open_error (w : World) (e : GoError)
    (h : (loadConfig w.env).incomplete = false)
    (ho : w.sqlOpen "pgx" (dbURI (loadConfig w.env)) = .error e) :
    ConnectToDatabase w =
      { db := none
        err := some (GoError.wrapError ("sql.Open: " ++ e.Error) e)
        trace := [Event.log ("Executing " ++ w.funcName),
                  Event.log ("Connecting to database with URI: " ++ dbURI (loadConfig w.env)),
                  Event.sqlOpen "pgx" (dbURI (loadConfig w.env)) (.error e),
                  Event.log ("sql.Open: " ++ e.Error)] } := by
  simp [ConnectToDatabase, h, ho, LogFunctionExecutionStart]

theorem connect_ping_error (w : World) (pool : DB) (e : GoError)
    (h : (loadConfig w.env).incomplete = false)
    (ho : w.sqlOpen "pgx" (dbURI (loadConfig w.env)) = .ok pool)
    (hp : w.ping pool = some e) :
    ConnectToDatabase w =
      { db := none
        err := some (GoError.wrapError ("DB ping error: " ++ e.Error) e)
        trace := [Event.log ("Executing " ++ w.funcName),
                  Event.log ("Connecting to database with URI: " ++ dbURI (loadConfig w.env)),
                  Event.sqlOpen "pgx" (dbURI (loadConfig w.env)) (.ok pool),
                  Event.setMaxOpenConns pool 5,
                  Event.setMaxIdleConns pool 3,
                  Event.setConnMaxIdleTime pool 5,
                  Event.ping pool (some e),
                  Event.log ("Error pinging the database: " ++ e.Error)] } := by
  simp [ConnectToDatabase, h, ho, hp, LogFunctionExecutionStart]

theorem connect_ready (w : World) (pool : DB)
    (h : (loadConfig w.env).incomplete = false)
    (ho : w.sqlOpen "pgx" (dbURI (loadConfig w.env)) = .ok pool)
    (hp : w.ping pool = none) :
    ConnectToDatabase w =
      { db := some pool
        err := none
        trace := [Event.log ("Executing " ++ w.funcName),
                  Event.log ("Connecting to database with URI: " ++ dbURI (loadConfig w.env)),
                  Event.sqlOpen "pgx" (dbURI (loadConfig w.env)) (.ok pool),
                  Event.setMaxOpenConns pool 5,
                  Event.setMaxIdleConns pool 3,
                  Event.setConnMaxIdleTime pool 5,
                  Event.ping pool none,
                  Event.log "Database successfully pinged"] } := by
  simp [ConnectToDatabase, h, ho, hp, LogFunctionExecutionStart]

/-- A handle is returned only on the path where everything succeeded. -/
theorem connect_db_some (w : World) (pool : DB) (h : (ConnectToDatabase w).db = some pool) :
    (loadConfig w.env).incomplete = false ∧
      w.sqlOpen "pgx" (dbURI (loadConfig w.env)) = .ok pool ∧ w.ping pool = none := by
  cases hc : (loadConfig w.env).incomplete with
  | true => rw [connect_incomplete w hc] at h; simp at h
  | false =>
    cases ho : w.sqlOpen "pgx" (dbURI (loadConfig w.env)) with
    | error e => rw [connect_open_error w e hc ho] at h; simp at h
    | ok p =>
      cases hp : w.ping p with
      | some e => rw [connect_ping_error w p e hc ho hp] at h; simp at h
      | none =>
        rw [connect_ready w p hc ho hp] at h
        simp at h
        subst h
        exact ⟨rfl, rfl, hp⟩

/-- A handle is returned exactly when the error is nil. -/
theorem connect_db_isSome_iff (w : World) :
    (ConnectToDatabase w).db ≠ none ↔ (ConnectToDatabase w).err = none := by
  cases hc : (loadConfig w.env).incomplete with
  | true => rw [connect_incomplete w hc]; simp
  | false =>
    cases ho : w.sqlOpen "pgx" (dbURI (loadConfig w.env)) with
    | error e => rw [connect_open_error w e hc ho]; simp
    | ok p =>
      cases hp : w.ping p with
      | some e => rw [connect_ping_error w p e hc ho hp]; simp
      | none => rw [connect_ready w p hc ho hp]; simp

/-- On a complete configuration no path returns an error whose message is the
one of the missing-variable error. -/
theorem connect_complete_message (w : World) (hc : (loadConfig w.env).incomplete = false) :
    (ConnectToDatabase w).err.map GoError.Error ≠
      some "missing environment variable for database connection" := by
  cases ho : w.sqlOpen "pgx" (dbURI (loadConfig w.env)) with
  | error e =>
    rw [connect_open_error w e hc ho]
    simp [GoError.Error, String.ext_iff]
  | ok p =>
    cases hp : w.ping p with
    | some e =>
      rw [connect_ping_error w p e hc ho hp]
      simp [GoError.Error, String.ext_iff]
    | none => rw [connect_ready w p hc ho hp]; simp

/-! ## The two paths of `init` -/

theorem init_failed (w : World) (g : Globals) (e : GoError)
    (h : (ConnectToDatabase w).err = some e) :
    init w g =
      ({ DBPool := (ConnectToDatabase w).db, dbErr := some e },
        (ConnectToDatabase w).trace ++
          [Event.log ("Error connecting the database: " ++ e.Error)]) := by
  simp [init, h]

theorem init_ready (w : World) (g : Globals) (h : (ConnectToDatabase w).err = none) :
    init w g =
      ({ DBPool := (ConnectToDatabase w).db, dbErr := none }, (ConnectToDatabase w).trace) := by
  simp [init, h]

/-! ## Counting pools -/

theorem opens_append (a b : List Event) : opens (a ++ b) = opens a + opens b := by
  induction a with
  | nil => simp [opens]
  | cons e t ih =>
    cases e with
    | sqlOpen d n r => cases r <;> simp [opens, ih]; omega
    | _ => simp [opens, ih]

theorem prefix_opens_le {p t : List Event} (h : p <+: t) : opens p ≤ opens t := by
  obtain ⟨s, rfl⟩ := h
  rw [opens_append]
  omega

theorem foldl_liveStep_length (t : List Event) (live : List DB) :
    (t.foldl liveStep live).length ≤ live.length + opens t := by
  induction t generalizing live with
  | nil => simp [opens]
  | cons e t ih =>
    rw [List.foldl_cons]
    refine (ih _).trans ?_
    cases e with
    | sqlOpen d n r => cases r <;> simp [liveStep, opens]; omega
    | close p =>
      have := List.length_erase_le p live
      simp only [liveStep, opens]
      omega
    | _ => simp [liveStep, opens]

theorem livePools_length_le (t : List Event) : (livePools t).length ≤ opens t := by
  have := foldl_liveStep_length t []
  simpa [livePools] using this

theorem opens_connect_le (w : World) : opens (ConnectToDatabase w).trace ≤ 1 := by
  cases hc : (loadConfig w.env).incomplete with
  | true => rw [connect_incomplete w hc]; simp [opens]
  | false =>
    cases ho : w.sqlOpen "pgx" (dbURI (loadConfig w.env)) with
    | error e => rw [connect_open_error w e hc ho]; simp [opens]
    | ok p =>
      cases hp : w.ping p with
      | some e => rw [connect_ping_error w p e hc ho hp]; simp [opens]
      | none => rw [connect_ready w p hc ho hp]; simp [opens]

theorem opens_init_le (w : World) (g : Globals) : opens (init w g).2 ≤ 1 := by
  have h := opens_connect_le w
  cases he : (ConnectToDatabase w).err with
  | some e => rw [init_failed w g e he]; simp only [opens_append, opens]; omega
  | none => rw [init_ready w g he]; exact h

theorem opens_furtherCalls_le (ws : List World) : opens (furtherCalls ws) ≤ ws.length := by
  induction ws with
  | nil => simp [furtherCalls, opens]
  | cons w ws ih =>
    have h := opens_connect_le w
    simp only [furtherCalls, opens_append, List.length_cons]
    omega

/-! ## The connection descriptor -/

theorem split_at_space (a a' b b' : List Char) (ha : ' ' ∉ a) (ha' : ' ' ∉ a')
    (h : a ++ ' ' :: b = a' ++ ' ' :: b') : a = a' ∧ b = b' := by
  induction a generalizing a' with
  | nil =>
    cases a' with
    | nil => simpa using h
    | cons x t =>
      simp at h ha'
      exact absurd h.1 ha'.1
  | cons x t ih =>
    cases a' with
    | nil =>
      simp at h ha
      exact absurd h.1.symm ha.1
    | cons y s =>
      simp at h ha ha'
      obtain ⟨rfl, h2⟩ := h
      obtain ⟨r1, r2⟩ := ih s ha.2 ha'.2 h2
      exact ⟨by rw [r1], r2⟩

theorem dbURI_data (c : Config) :
    (dbURI c).data = 'h' :: 'o' :: 's' :: 't' :: '=' :: (c.host.data ++ ' ' ::
      'u' :: 's' :: 'e' :: 'r' :: '=' :: (c.user.data ++ ' ' ::
      'p' :: 'a' :: 's' :: 's' :: 'w' :: 'o' :: 'r' :: 'd' :: '=' :: (c.password.data ++ ' ' ::
      'p' :: 'o' :: 'r' :: 't' :: '=' :: (c.port.data ++ ' ' ::
      'd' :: 'a' :: 't' :: 'a' :: 'b' :: 'a' :: 's' :: 'e' :: '=' :: c.dbname.data)))) := by
  simp [dbURI, String.data_append]

theorem dbURI_injective (c d : Config)
    (h1 : noSpace c.host) (h2 : noSpace c.user) (h3 : noSpace c.password) (h4 : noSpace c.port)
    (k1 : noSpace d.host) (k2 : noSpace d.user) (k3 : noSpace d.password) (k4 : noSpace d.port)
    (h : dbURI c = dbURI d) : c = d := by
  have hd := congrArg String.data h
  rw [dbURI_data, dbURI_data] at hd
  simp only [List.cons.injEq, true_and] at hd
  obtain ⟨e1, hd⟩ := split_at_space _ _ _ _ h1 k1 hd
  simp only [List.cons.injEq, true_and] at hd
  obtain ⟨e2, hd⟩ := split_at_space _ _ _ _ h2 k2 hd
  simp only [List.cons.injEq, true_and] at hd
  obtain ⟨e3, hd⟩ := split_at_space _ _ _ _ h3 k3 hd
  simp only [List.cons.injEq, true_and] at hd
  obtain ⟨e4, hd⟩ := split_at_space _ _ _ _ h4 k4 hd
  simp only [List.cons.injEq, true_and] at hd
  cases c; cases d
  simp only [Config.mk.injEq]
  simp only at e1 e2 e3 e4 hd
  exact ⟨String.ext e1, String.ext e4, String.ext hd, String.ext e2, String.ext e3⟩

/-! ## Claims -/

/-- C1: `ConnectToDatabase` returns a nil handle and the error whose message is
"missing environment variable for database connection" if and only if one of the
five variables is absent or empty; and then the returned error is the one of
line 58 and the only call made is the start-of-operation log line: no call into
the `sql` package, so no descriptor built from a substituted value. -/
theorem connect_missing_config_iff (w : World) :
    (((ConnectToDatabase w).db = none ∧
        (ConnectToDatabase w).err.map GoError.Error =
          some "missing environment variable for database connection") ↔
      ∃ key ∈ requiredKeys, absentOrEmpty w.env key) ∧
    ((∃ key ∈ requiredKeys, absentOrEmpty w.env key) →
      (ConnectToDatabase w).err = some missingEnvError ∧
      (ConnectToDatabase w).trace = [Event.log ("Executing " ++ w.funcName)] ∧
      ∀ e ∈ (ConnectToDatabase w).trace, e.isDriverCall = false) := by
  have key : (∃ key ∈ requiredKeys, absentOrEmpty w.env key) →
      (ConnectToDatabase w).db = none ∧
      (ConnectToDatabase w).err = some missingEnvError ∧
      (ConnectToDatabase w).trace = [Event.log ("Executing " ++ w.funcName)] := by
    intro h
    rw [connect_incomplete w ((incomplete_iff w.env).2 h)]
    exact ⟨rfl, rfl, rfl⟩
  refine ⟨⟨?_, ?_⟩, ?_⟩
  · rintro ⟨-, hmsg⟩
    by_contra hno
    have hc : (loadConfig w.env).incomplete = false := by
      rw [← Bool.not_eq_true, incomplete_iff]
      exact hno
    exact connect_complete_message w hc hmsg
  · intro h
    obtain ⟨h1, h2, -⟩ := key h
    exact ⟨h1, by rw [h2]; rfl⟩
  · intro h
    obtain ⟨-, h2, h3⟩ := key h
    refine ⟨h2, h3, ?_⟩
    rw [h3]
    intro e he
    simp only [List.mem_singleton] at he
    subst he
    rfl

theorem connect_missing_config_witness :
    (ConnectToDatabase emptyPasswordWorld).db = none ∧
    (ConnectToDatabase emptyPasswordWorld).err = some missingEnvError ∧
    (ConnectToDatabase emptyPasswordWorld).trace =
      [Event.log ("Executing " ++ emptyPasswordWorld.funcName)] :=
  ⟨((connect_missing_config_iff emptyPasswordWorld).1.2 (by decide)).1,
    ((connect_missing_config_iff emptyPasswordWorld).2 (by decide)).1,
    ((connect_missing_config_iff emptyPasswordWorld).2 (by decide)).2.1⟩

/-- C2: on a complete configuration, when the open call gives `pool` and the
probe succeeds, `ConnectToDatabase` returns `pool` with a nil error; and it
returns a handle only when the configuration is complete, the open call gave
that handle and the probe on it succeeded. -/
theorem connect_ready_iff (w : World) (pool : DB) :
    (configured w.env ∧ w.sqlOpen "pgx" (dbURI (loadConfig w.env)) = .ok pool ∧
        w.ping pool = none →
      (ConnectToDatabase w).db = some pool ∧ (ConnectToDatabase w).err = none) ∧
    ((ConnectToDatabase w).db = some pool →
      configured w.env ∧ w.sqlOpen "pgx" (dbURI (loadConfig w.env)) = .ok pool ∧
        w.ping pool = none) := by
  constructor
  · rintro ⟨hc, ho, hp⟩
    rw [connect_ready w pool ((complete_iff w.env).2 hc) ho hp]
    exact ⟨rfl, rfl⟩
  · intro h
    obtain ⟨hc, ho, hp⟩ := connect_db_some w pool h
    exact ⟨(complete_iff w.env).1 hc, ho, hp⟩

theorem connect_ready_witness :
    configured (reachableWorld 1).env ∧
    (ConnectToDatabase (reachableWorld 1)).db = some ⟨1⟩ ∧
    (ConnectToDatabase (reachableWorld 1)).err = none :=
  ⟨by decide, (connect_ready_iff (reachableWorld 1) ⟨1⟩).1 ⟨by decide, rfl, rfl⟩⟩

/-- C3: on a complete configuration, when the open call gives `pool` and the
probe fails with `e`, `ConnectToDatabase` returns a nil handle and an error that
unwraps to `e` and whose message is "DB ping error: " followed by the message of
`e`; the probe is the seventh call, after the open call and the three limit
calls. -/
theorem connect_liveness_error (w : World) (pool : DB) (e : GoError)
    (hc : configured w.env)
    (ho : w.sqlOpen "pgx" (dbURI (loadConfig w.env)) = .ok pool)
    (hp : w.ping pool = some e) :
    (ConnectToDatabase w).db = none ∧
    (∃ err, (ConnectToDatabase w).err = some err ∧ err.Unwrap = some e ∧
      err.Error = "DB ping error: " ++ e.Error) ∧
    (ConnectToDatabase w).trace =
      [Event.log ("Executing " ++ w.funcName),
       Event.log ("Connecting to database with URI: " ++ dbURI (loadConfig w.env)),
       Event.sqlOpen "pgx" (dbURI (loadConfig w.env)) (.ok pool),
       Event.setMaxOpenConns pool 5,
       Event.setMaxIdleConns pool 3,
       Event.setConnMaxIdleTime pool 5,
       Event.ping pool (some e),
       Event.log ("Error pinging the database: " ++ e.Error)] := by
  rw [connect_ping_error w pool e ((complete_iff w.env).2 hc) ho hp]
  exact ⟨rfl, ⟨_, rfl, rfl, rfl⟩, rfl⟩

theorem connect_liveness_error_witness :
    configured sampleEnv ∧
    (ConnectToDatabase (partitionWorld 1 (.errorString "timeout"))).db = none ∧
    (∃ err, (ConnectToDatabase (partitionWorld 1 (.errorString "timeout"))).err = some err ∧
      err.Unwrap = some (.errorString "timeout") ∧
      err.Error = "DB ping error: " ++ (GoError.errorString "timeout").Error) :=
  ⟨by decide,
    (connect_liveness_error (partitionWorld 1 (.errorString "timeout")) ⟨1⟩
      (.errorString "timeout") (by decide) rfl rfl).1,
    (connect_liveness_error (partitionWorld 1 (.errorString "timeout")) ⟨1⟩
      (.errorString "timeout") (by decide) rfl rfl).2.1⟩

/-- Whatever the world, the only duration `ConnectToDatabase` ever passes to
`SetConnMaxIdleTime` is 5 nanoseconds. -/
theorem idle_time_always_five (w : World) (pool : DB) (d : Duration)
    (h : Event.setConnMaxIdleTime pool d ∈ (ConnectToDatabase w).trace) :
    d = 5 * Nanosecond := by
  cases hc : (loadConfig w.env).incomplete with
  | true => rw [connect_incomplete w hc] at h; simp at h
  | false =>
    cases ho : w.sqlOpen "pgx" (dbURI (loadConfig w.env)) with
    | error e => rw [connect_open_error w e hc ho] at h; simp at h
    | ok p =>
      cases hp : w.ping p with
      | some e => rw [connect_ping_error w p e hc ho hp] at h; simp at h; rw [h.2]; rfl
      | none => rw [connect_ready w p hc ho hp] at h; simp at h; rw [h.2]; rfl

/-- C4 (the code at a complete configuration with a reachable database): the
duration passed to `SetConnMaxIdleTime` on the returned pool is 5, that is 5
nanoseconds, and not 5 minutes (300000000000). -/
theorem idle_time_is_five_nanoseconds :
    (ConnectToDatabase (reachableWorld 1)).db = some ⟨1⟩ ∧
    Event.setConnMaxIdleTime ⟨1⟩ (5 * Nanosecond) ∈ (ConnectToDatabase (reachableWorld 1)).trace ∧
    (limitsOf ⟨1⟩ (ConnectToDatabase (reachableWorld 1)).trace).connMaxIdleTime =
      some (5 * Nanosecond) ∧
    5 * Nanosecond ≠ 5 * Minute ∧ 5 * Minute = 300000000000 := by
  decide

/-- C5: a handle returned by `ConnectToDatabase` has had its maximum of open
connections set to 5 and its maximum of idle connections set to 3, whatever the
configuration; both are set before the probe, which is issued once; so on the
returned handle the idle maximum is at most the open maximum. -/
theorem returned_pool_limits (w : World) (pool : DB)
    (h : (ConnectToDatabase w).db = some pool) :
    (∃ pre post, (ConnectToDatabase w).trace = pre ++ Event.ping pool none :: post ∧
      (∀ q r, Event.ping q r ∉ pre) ∧ (∀ q r, Event.ping q r ∉ post) ∧
      (limitsOf pool pre).maxOpenConns = some 5 ∧
      (limitsOf pool pre).maxIdleConns = some 3) ∧
    (limitsOf pool (ConnectToDatabase w).trace).maxOpenConns = some 5 ∧
    (limitsOf pool (ConnectToDatabase w).trace).maxIdleConns = some 3 ∧
    (∀ i o, (limitsOf pool (ConnectToDatabase w).trace).maxIdleConns = some i →
      (limitsOf pool (ConnectToDatabase w).trace).maxOpenConns = some o → i ≤ o) := by
  obtain ⟨hc, ho, hp⟩ := connect_db_some w pool h
  rw [connect_ready w pool hc ho hp]
  refine ⟨⟨[Event.log ("Executing " ++ w.funcName),
       Event.log ("Connecting to database with URI: " ++ dbURI (loadConfig w.env)),
       Event.sqlOpen "pgx" (dbURI (loadConfig w.env)) (.ok pool),
       Event.setMaxOpenConns pool 5,
       Event.setMaxIdleConns pool 3,
       Event.setConnMaxIdleTime pool 5], [Event.log "Database successfully pinged"],
       rfl, ?_, ?_, ?_, ?_⟩, ?_, ?_, ?_⟩
  · simp
  · simp
  · simp [limitsOf, PoolLimits.record]
  · simp [limitsOf, PoolLimits.record]
  · simp [limitsOf, PoolLimits.record]
  · simp [limitsOf, PoolLimits.record]
  · intro i o hi ho
    simp [limitsOf, PoolLimits.record] at hi ho
    omega

theorem returned_pool_limits_witness :
    (ConnectToDatabase (reachableWorld 7)).db = some ⟨7⟩ ∧
    (limitsOf ⟨7⟩ (ConnectToDatabase (reachableWorld 7)).trace).maxOpenConns = some 5 ∧
    (limitsOf ⟨7⟩ (ConnectToDatabase (reachableWorld 7)).trace).maxIdleConns = some 3 :=
  ⟨by decide, (returned_pool_limits (reachableWorld 7) ⟨7⟩ (by decide)).2.1,
    (returned_pool_limits (reachableWorld 7) ⟨7⟩ (by decide)).2.2.1⟩

/-- C6 (as stated, refuted): the start-up routine followed by one further
successful call of `ConnectToDatabase` leaves two pools live. -/
theorem two_live_pools_after_second_call :
    livePools (session (reachableWorld 1) ⟨none, none⟩ [reachableWorld 2]) = [⟨2⟩, ⟨1⟩] ∧
    1 < (livePools (session (reachableWorld 1) ⟨none, none⟩ [reachableWorld 2])).length := by
  decide

/-- No path of `ConnectToDatabase` closes a pool. -/
theorem connect_never_closes (w : World) (q : DB) :
    Event.close q ∉ (ConnectToDatabase w).trace := by
  cases hc : (loadConfig w.env).incomplete with
  | true => rw [connect_incomplete w hc]; simp
  | false =>
    cases ho : w.sqlOpen "pgx" (dbURI (loadConfig w.env)) with
    | error e => rw [connect_open_error w e hc ho]; simp
    | ok p =>
      cases hp : w.ping p with
      | some e => rw [connect_ping_error w p e hc ho hp]; simp
      | none => rw [connect_ready w p hc ho hp]; simp

theorem init_never_closes (w : World) (g : Globals) (q : DB) :
    Event.close q ∉ (init w g).2 := by
  have h := connect_never_closes w q
  cases he : (ConnectToDatabase w).err with
  | some e => rw [init_failed w g e he]; simpa using h
  | none => rw [init_ready w g he]; exact h

theorem furtherCalls_never_closes (ws : List World) (q : DB) :
    Event.close q ∉ furtherCalls ws := by
  induction ws with
  | nil => simp [furtherCalls]
  | cons w ws ih =>
    have h := connect_never_closes w q
    simp only [furtherCalls, List.mem_append, not_or]
    exact ⟨h, ih⟩

/-- C6 (amended): at every moment of the start-up routine at most one pool is
live; each further call of `ConnectToDatabase` adds at most one, so that at
every moment of a run with `ws.length` further calls at most `1 + ws.length`
pools are live; and no call closes a pool. -/
theorem live_pools_bound (w : World) (g : Globals) (ws : List World) :
    (∀ p, p <+: (init w g).2 → (livePools p).length ≤ 1) ∧
    (∀ p, p <+: session w g ws → (livePools p).length ≤ 1 + ws.length) ∧
    (∀ q, Event.close q ∉ session w g ws) := by
  refine ⟨?_, ?_, ?_⟩
  · intro p hp
    exact (livePools_length_le p).trans ((prefix_opens_le hp).trans (opens_init_le w g))
  · intro p hp
    refine (livePools_length_le p).trans ((prefix_opens_le hp).trans ?_)
    have h1 := opens_init_le w g
    have h2 := opens_furtherCalls_le ws
    simp only [session, opens_append]
    omega
  · intro q
    simp only [session, List.mem_append, not_or]
    exact ⟨init_never_closes w g q, furtherCalls_never_closes ws q⟩

/-- C7: after `init`, `DBPool` is non-nil exactly when `ConnectToDatabase`
returned a nil error, and it is what `ConnectToDatabase` returned; when
`ConnectToDatabase` returns an error, `DBPool` is nil, `dbErr` is that error, and
`init` adds one log line with it to the calls of the single run of
`ConnectToDatabase`; on success it adds nothing. -/
theorem init_globals (w : World) (g : Globals) :
    ((init w g).1.DBPool ≠ none ↔ (ConnectToDatabase w).err = none) ∧
    (init w g).1.DBPool = (ConnectToDatabase w).db ∧
    (init w g).1.dbErr = (ConnectToDatabase w).err ∧
    (∀ e, (ConnectToDatabase w).err = some e →
      (init w g).1.DBPool = none ∧ (init w g).1.dbErr = some e ∧
      (init w g).2 = (ConnectToDatabase w).trace ++
        [Event.log ("Error connecting the database: " ++ e.Error)]) ∧
    ((ConnectToDatabase w).err = none → (init w g).2 = (ConnectToDatabase w).trace) := by
  have hiff := connect_db_isSome_iff w
  cases he : (ConnectToDatabase w).err with
  | some e =>
    rw [init_failed w g e he]
    have hnone : (ConnectToDatabase w).db = none := by
      by_contra hne
      rw [hiff.1 hne] at he
      cases he
    refine ⟨?_, rfl, rfl, ?_, ?_⟩
    · simp [hnone]
    · intro e2 h2
      cases h2
      exact ⟨hnone, rfl, rfl⟩
    · intro h2
      cases h2
  | none =>
    rw [init_ready w g he]
    refine ⟨?_, rfl, rfl, ?_, ?_⟩
    · simpa [he] using hiff
    · intro e2 h2
      cases h2
    · intro _
      rfl

/-- C8 (the code at an empty password): `ConnectToDatabase` returns the
missing-variable error after a single call, the start-of-operation log line; no
line describing the failure is logged, while the open-error and probe-error
paths log theirs before returning. -/
theorem missing_config_not_logged :
    ConnectToDatabase emptyPasswordWorld =
      { db := none, err := some missingEnvError,
        trace := [Event.log "Executing util.ConnectToDatabase"] } ∧
    Event.log "sql.Open: bad dsn" ∈
      (ConnectToDatabase (rejectingWorld (.errorString "bad dsn"))).trace ∧
    Event.log "Error pinging the database: timeout" ∈
      (ConnectToDatabase (partitionWorld 1 (.errorString "timeout"))).trace := by
  decide

/-- C9: on a complete configuration the first three calls of
`ConnectToDatabase` are, in this order, the start-of-operation log line, a log
line that ends with the descriptor, and the open call for driver "pgx" with the
same descriptor; the descriptor is "host=" host " user=" user " password="
password " port=" port " database=" dbname, the password as it is; no other
open call follows. -/
theorem connect_descriptor (w : World) (host port dbname user password : String)
    (h1 : w.env "DB_HOST_DEV" = some host) (h2 : w.env "DB_PORT_DEV" = some port)
    (h3 : w.env "DB_NAME_DEV" = some dbname) (h4 : w.env "DB_USER_DEV" = some user)
    (h5 : w.env "DB_PASSWORD_DEV" = some password)
    (n1 : host ≠ "") (n2 : port ≠ "") (n3 : dbname ≠ "") (n4 : user ≠ "")
    (n5 : password ≠ "") :
    ∃ rest, (ConnectToDatabase w).trace =
      Event.log ("Executing " ++ w.funcName) ::
      Event.log ("Connecting to database with URI: " ++
        ("host=" ++ host ++ " user=" ++ user ++ " password=" ++ password ++
          " port=" ++ port ++ " database=" ++ dbname)) ::
      Event.sqlOpen "pgx"
        ("host=" ++ host ++ " user=" ++ user ++ " password=" ++ password ++
          " port=" ++ port ++ " database=" ++ dbname)
        (w.sqlOpen "pgx"
          ("host=" ++ host ++ " user=" ++ user ++ " password=" ++ password ++
            " port=" ++ port ++ " database=" ++ dbname)) :: rest ∧
      ∀ d n r, Event.sqlOpen d n r ∉ rest := by
  have hcfg : loadConfig w.env = ⟨host, port, dbname, user, password⟩ := by
    simp [loadConfig, Getenv, h1, h2, h3, h4, h5]
  have hc : (loadConfig w.env).incomplete = false := by
    rw [hcfg]
    simp [Config.incomplete, n1, n2, n3, n4, n5]
  have huri : dbURI (loadConfig w.env) =
      "host=" ++ host ++ " user=" ++ user ++ " password=" ++ password ++
        " port=" ++ port ++ " database=" ++ dbname := by
    rw [hcfg]
    rfl
  rw [← huri]
  cases ho : w.sqlOpen "pgx" (dbURI (loadConfig w.env)) with
  | error e =>
    rw [connect_open_error w e hc ho]
    exact ⟨_, rfl, by simp⟩
  | ok p =>
    cases hp : w.ping p with
    | some e =>
      rw [connect_ping_error w p e hc ho hp]
      exact ⟨_, rfl, by simp⟩
    | none =>
      rw [connect_ready w p hc ho hp]
      exact ⟨_, rfl, by simp⟩

theorem connect_descriptor_witness :
    ∃ rest, (ConnectToDatabase (reachableWorld 1)).trace =
      Event.log ("Executing " ++ (reachableWorld 1).funcName) ::
      Event.log ("Connecting to database with URI: " ++
        ("host=" ++ "db.local" ++ " user=" ++ "svc" ++ " password=" ++ "x" ++
          " port=" ++ "5432" ++ " database=" ++ "app")) ::
      Event.sqlOpen "pgx"
        ("host=" ++ "db.local" ++ " user=" ++ "svc" ++ " password=" ++ "x" ++
          " port=" ++ "5432" ++ " database=" ++ "app")
        ((reachableWorld 1).sqlOpen "pgx"
          ("host=" ++ "db.local" ++ " user=" ++ "svc" ++ " password=" ++ "x" ++
            " port=" ++ "5432" ++ " database=" ++ "app")) :: rest ∧
      ∀ d n r, Event.sqlOpen d n r ∉ rest :=
  connect_descriptor (reachableWorld 1) "db.local" "5432" "app" "svc" "x"
    rfl rfl rfl rfl rfl (by decide) (by decide) (by decide) (by decide) (by decide)

/-- With a space in a value two different configurations give one descriptor. -/
theorem dbURI_collision_with_space :
    dbURI ⟨"a user=b", "5432", "app", "c", "x"⟩ = dbURI ⟨"a", "5432", "app", "b user=c", "x"⟩ ∧
    (⟨"a user=b", "5432", "app", "c", "x"⟩ : Config) ≠ ⟨"a", "5432", "app", "b user=c", "x"⟩ := by
  decide

/-- C10: two complete configurations none of whose ten values holds a space and
whose descriptors are equal are equal field by field. -/
theorem descriptor_injective (c d : Config)
    (_hc : c.incomplete = false) (_hd : d.incomplete = false)
    (sc : c.noSpace) (sd : d.noSpace) (h : dbURI c = dbURI d) : c = d :=
  dbURI_injective c d sc.1 sc.2.2.2.1 sc.2.2.2.2 sc.2.1 sd.1 sd.2.2.2.1 sd.2.2.2.2 sd.2.1 h

theorem descriptor_injective_witness :
    sampleConfig.incomplete = false ∧ sampleConfig.noSpace ∧
    (loadConfig (reachableWorld 1).env).noSpace ∧
    dbURI sampleConfig = dbURI (loadConfig (reachableWorld 1).env) ∧
    sampleConfig = loadConfig (reachableWorld 1).env :=
  ⟨by decide, by decide, by decide, by decide,
    descriptor_injective sampleConfig (loadConfig (reachableWorld 1).env)
      (by decide) (by decide) (by decide) (by decide) (by decide)⟩

end Util
